import Mathlib

/-!
Shallow embedding of `sync_app/public/js/sync_global.js` (the whole
repository): a floating sync button widget for a Frappe-based front end.
The script's effects on the outside world (remote calls, modal notices,
console output) are modelled as an explicit trace of `Effect`s, and the
DOM/handler state the widget owns is modelled by `DOMState`.
-/

namespace SyncApp

/-- Response object handed to a `frappe.call` callback: `exc` is the error
indicator (`r.exc` at lines 24/35), `message` the optional display
message (`r.message`). -/
structure Response where
  exc : Bool
  message : Option String
deriving DecidableEq, Repr

/-- The arguments of a `frappe.call` invocation as issued by this widget
(lines 20-25 and 31-36): operation name, UI-freeze flag and busy caption. -/
structure RemoteCall where
  method : String
  freeze : Bool
  freeze_message : String
deriving DecidableEq, Repr

/-- Observable effects the script performs, in order. -/
inductive Effect where
  | call (c : RemoteCall) : Effect
  | msgprint (m : Option String) : Effect
  | consoleWarn (s : String) : Effect
  | consoleLog (s : String) : Effect
deriving DecidableEq, Repr

/-- The completion callback at line 24 and, identically, line 35:
`(r) => { if(!r.exc) frappe.msgprint(r.message); }`. The message is passed
to `frappe.msgprint` unconditionally, with no presence check. -/
def sync_callback (r : Response) : List Effect :=
  if !r.exc then [Effect.msgprint r.message] else []

/-- `frappe.confirm(message, onYes)` (lines 19 and 30): runs the
on-confirm continuation only if the user accepts, else does nothing. -/
def frappe_confirm (_message : String) (userConfirms : Bool)
    (onYes : List Effect) : List Effect :=
  if userConfirms then onYes else []

/-- The remote call issued by `run_sync_up` (lines 20-25). -/
def pushCall : RemoteCall :=
  { method := "sync_app.sync.api.sync_up_to_master"
    freeze := true
    freeze_message := "Pushing..." }

/-- The remote call issued by `run_sync_down` (lines 31-36). -/
def pullCall : RemoteCall :=
  { method := "sync_app.sync.api.sync_down_from_master"
    freeze := true
    freeze_message := "Pulling..." }

/-- `run_sync_up` (lines 18-27): confirm "Push changes to Master?", and on
confirmation issue the push remote call. -/
def run_sync_up (userConfirms : Bool) : List Effect :=
  frappe_confirm "Push changes to Master?" userConfirms
    [Effect.call pushCall]

/-- `run_sync_down` (lines 29-38): confirm "Pull changes from Master?",
and on confirmation issue the pull remote call. -/
def run_sync_down (userConfirms : Bool) : List Effect :=
  frappe_confirm "Pull changes from Master?" userConfirms
    [Effect.call pullCall]

/-- The remote calls contained in an effect trace. -/
def remoteCalls (es : List Effect) : List RemoteCall :=
  es.filterMap fun e =>
    match e with
    | Effect.call c => some c
    | _ => none

/-- The DOM and handler state the widget touches: how many elements with
id `sync-floating-btn` are in the document, whether `#sync-popup-menu` is
shown, and how many document-level click handlers are bound. -/
structure DOMState where
  syncBtnCount : Nat
  popupVisible : Bool
  docClickHandlers : Nat
deriving DecidableEq, Repr

/-- Line 43: `$('#sync-floating-btn').remove()` removes every element
with that id (the popup lives inside it, so it disappears too). Handlers
bound on `document` are untouched. -/
def removeSyncBtn (d : DOMState) : DOMState :=
  { d with syncBtnCount := 0, popupVisible := false }

/-- Line 61: `$('body').append(btn_html)` appends one fresh instance of
the markup; the popup inside it starts with `display: none`. -/
def appendSyncBtn (d : DOMState) : DOMState :=
  { d with syncBtnCount := d.syncBtnCount + 1, popupVisible := false }

/-- Line 83: `$(document).on('click', ...)` binds one more document-level
click handler. -/
def bindDocHandler (d : DOMState) : DOMState :=
  { d with docClickHandlers := d.docClickHandlers + 1 }

/-- `create_floating_button` (lines 41-88): remove any existing instance,
append a fresh one, bind the document-level dismiss handler. -/
def create_floating_button (d : DOMState) : DOMState :=
  bindDocHandler (appendSyncBtn (removeSyncBtn d))

/-- The ambient runtime the ready handler inspects: whether the global
`frappe` object and its `call` member are defined, and the session user. -/
structure Env where
  frappeDefined : Bool
  callDefined : Bool
  sessionUser : String
deriving DecidableEq, Repr

/-- The `$(function() { ... })` ready handler (lines 5-92): guard on the
`frappe` runtime (lines 7-10), guard on the guest session (line 13), then
construct the floating button (line 91). Returns the resulting DOM state
and the console output produced. -/
def ready_handler (env : Env) (d : DOMState) : DOMState × List Effect :=
  if !env.frappeDefined || !env.callDefined then
    (d, [Effect.consoleWarn "Sync App: Frappe not loaded yet."])
  else if env.sessionUser = "Guest" then
    (d, [])
  else
    (create_floating_button d,
     [Effect.consoleLog "Sync App: Initializing...",
      Effect.consoleLog "Sync App: Floating button created"])

/-- The click handler bound on the main button (lines 64-67): calls
`e.stopPropagation()` and toggles the popup. Returns the new state and
whether propagation was stopped. -/
def buttonClickHandler (d : DOMState) : DOMState × Bool :=
  ({ d with popupVisible := !d.popupVisible }, true)

/-- The document-level click handler bound at lines 83-85: hide the
popup. -/
def documentClickHandler (d : DOMState) : DOMState :=
  { d with popupVisible := false }

/-- A click on the main button: the button's own handler runs first; the
document-level handlers run afterwards only if the event still propagates. -/
def dispatchButtonClick (d : DOMState) : DOMState :=
  let r := buttonClickHandler d
  if r.2 then r.1 else documentClickHandler r.1

/-- A click anywhere in the document outside the control: every bound
document-level click handler runs. -/
def dispatchOutsideClick (d : DOMState) : DOMState :=
  documentClickHandler^[d.docClickHandlers] d

/-- The DOM state produced by running the ready handler. -/
def ready_dom (env : Env) (d : DOMState) : DOMState :=
  (ready_handler env d).1

lemma documentClickHandler_idem (d : DOMState) :
    documentClickHandler (documentClickHandler d) = documentClickHandler d := rfl

lemma create_docClickHandlers (n : Nat) (d : DOMState) :
    (create_floating_button^[n] d).docClickHandlers = d.docClickHandlers + n := by
  induction n generalizing d with
  | zero => simp
  | succ k ih =>
    rw [Function.iterate_succ_apply, ih]
    simp [create_floating_button, bindDocHandler, appendSyncBtn, removeSyncBtn]
    omega

/-- C1: if the user confirms, each sync action issues exactly one remote
call, to `sync_app.sync.api.sync_up_to_master` (push) respectively
`sync_app.sync.api.sync_down_from_master` (pull), with the freeze flag set
and busy caption "Pushing..." respectively "Pulling...". -/
theorem sync_confirmed_issues_one_call :
    run_sync_up true =
      [Effect.call { method := "sync_app.sync.api.sync_up_to_master",
                     freeze := true, freeze_message := "Pushing..." }] ∧
    run_sync_down true =
      [Effect.call { method := "sync_app.sync.api.sync_down_from_master",
                     freeze := true, freeze_message := "Pulling..." }] ∧
    (remoteCalls (run_sync_up true)).length = 1 ∧
    (remoteCalls (run_sync_down true)).length = 1 := by
  refine ⟨rfl, rfl, rfl, rfl⟩

/-- C2: every sync-call response with no error indicator has its message
displayed via `frappe.msgprint`; a response with the error indicator set
produces no display at all. -/
theorem sync_callback_error_binary (r : Response) :
    (r.exc = false → sync_callback r = [Effect.msgprint r.message]) ∧
    (r.exc = true → sync_callback r = []) := by
  constructor <;> intro h <;> simp [sync_callback, h]

theorem sync_callback_error_binary_witness :
    sync_callback ⟨false, some "OK"⟩ = [Effect.msgprint (some "OK")] ∧
    sync_callback ⟨true, some "boom"⟩ = [] :=
  ⟨(sync_callback_error_binary ⟨false, some "OK"⟩).1 rfl,
   (sync_callback_error_binary ⟨true, some "boom"⟩).2 rfl⟩

/-- C3: if the user declines the confirmation prompt, either sync action
performs no effect whatsoever: no remote call, no message, no state
change (the effect trace is empty). -/
theorem sync_declined_no_effects :
    run_sync_up false = [] ∧ run_sync_down false = [] ∧
    remoteCalls (run_sync_up false) = [] ∧
    remoteCalls (run_sync_down false) = [] := by
  refine ⟨rfl, rfl, rfl, rfl⟩

/-- C4: with the runtime available and a non-guest session, exactly one
element with id `sync-floating-btn` exists after initialization, and a
second initialization still leaves exactly one (construction removes any
previous instance first, so recreation is idempotent on the control's
DOM subtree). -/
theorem init_button_unique_and_idempotent (env : Env) (d : DOMState)
    (hf : env.frappeDefined = true) (hc : env.callDefined = true)
    (hg : env.sessionUser ≠ "Guest") :
    (ready_dom env d).syncBtnCount = 1 ∧
    (ready_dom env (ready_dom env d)).syncBtnCount = 1 := by
  simp [ready_dom, ready_handler, hf, hc, hg, create_floating_button,
    bindDocHandler, appendSyncBtn, removeSyncBtn]

theorem init_button_unique_and_idempotent_witness :
    (ready_dom ⟨true, true, "Administrator"⟩ ⟨0, false, 0⟩).syncBtnCount = 1 ∧
    (ready_dom ⟨true, true, "Administrator"⟩
      (ready_dom ⟨true, true, "Administrator"⟩ ⟨0, false, 0⟩)).syncBtnCount = 1 :=
  init_button_unique_and_idempotent ⟨true, true, "Administrator"⟩ ⟨0, false, 0⟩
    rfl rfl (by decide)

/-- C5: if the session user is the guest sentinel "Guest", the ready
handler returns with the DOM unchanged and no effect produced (no control
created, no error raised). -/
theorem guest_session_no_dom_change (env : Env) (d : DOMState)
    (hf : env.frappeDefined = true) (hc : env.callDefined = true)
    (hg : env.sessionUser = "Guest") :
    ready_handler env d = (d, []) := by
  simp [ready_handler, hf, hc, hg]

theorem guest_session_no_dom_change_witness :
    ready_handler ⟨true, true, "Guest"⟩ ⟨0, false, 0⟩ = (⟨0, false, 0⟩, []) :=
  guest_session_no_dom_change ⟨true, true, "Guest"⟩ ⟨0, false, 0⟩ rfl rfl rfl

/-- C6: if the `frappe` global or its `call` member is absent at
ready-time, the handler logs a console diagnostic and returns with the
DOM unchanged: no control is created and no other DOM change is made. -/
theorem runtime_absent_warn_only (env : Env) (d : DOMState)
    (h : env.frappeDefined = false ∨ env.callDefined = false) :
    ready_handler env d =
      (d, [Effect.consoleWarn "Sync App: Frappe not loaded yet."]) := by
  rcases h with h | h <;> simp [ready_handler, h]

theorem runtime_absent_warn_only_witness :
    ready_handler ⟨false, false, "Administrator"⟩ ⟨0, false, 0⟩ =
      (⟨0, false, 0⟩, [Effect.consoleWarn "Sync App: Frappe not loaded yet."]) :=
  runtime_absent_warn_only ⟨false, false, "Administrator"⟩ ⟨0, false, 0⟩ (Or.inl rfl)

/-- C7: a click on the main button toggles the popup's visibility
relative to the state before the click, leaves the rest of the state
untouched, and — because the handler stops propagation — the
document-level dismiss handler never additionally runs on that click. -/
theorem button_click_toggles_and_stops (d : DOMState) :
    dispatchButtonClick d = { d with popupVisible := !d.popupVisible } ∧
    (buttonClickHandler d).2 = true ∧
    dispatchButtonClick d = (buttonClickHandler d).1 := by
  refine ⟨rfl, rfl, rfl⟩

theorem button_click_toggles_and_stops_witness :
    dispatchButtonClick ⟨1, false, 1⟩ = ⟨1, true, 1⟩ ∧
    (buttonClickHandler ⟨1, false, 1⟩).2 = true ∧
    dispatchButtonClick ⟨1, false, 1⟩ = (buttonClickHandler ⟨1, false, 1⟩).1 :=
  button_click_toggles_and_stops ⟨1, false, 1⟩

/-- C8: whenever the popup is shown and at least one document-level
dismiss handler is bound (as after any initialization), a click anywhere
in the document outside the control leaves the popup hidden. -/
theorem outside_click_hides_popup (d : DOMState)
    (_hopen : d.popupVisible = true) (hh : 1 ≤ d.docClickHandlers) :
    (dispatchOutsideClick d).popupVisible = false := by
  obtain ⟨n, hn⟩ := Nat.exists_eq_add_of_le hh
  unfold dispatchOutsideClick
  rw [hn, Nat.add_comm, Function.iterate_succ_apply,
    Function.iterate_fixed (documentClickHandler_idem d)]
  rfl

theorem outside_click_hides_popup_witness :
    (dispatchOutsideClick ⟨1, true, 1⟩).popupVisible = false :=
  outside_click_hides_popup ⟨1, true, 1⟩ rfl (by decide)

/-- C9: re-initialization is idempotent only for the DOM subtree, not for
event bindings: starting from a document with no dismiss handler, after n
constructions n document-level dismiss handlers are bound, because each
construction binds a fresh one and removing the previous button element
leaves the previously bound document-level handlers in place. -/
theorem reinit_accumulates_doc_handlers (n : Nat) (d : DOMState)
    (h0 : d.docClickHandlers = 0) :
    (create_floating_button^[n] d).docClickHandlers = n ∧
    ∀ d2 : DOMState, (removeSyncBtn d2).docClickHandlers = d2.docClickHandlers := by
  refine ⟨?_, fun d2 => rfl⟩
  rw [create_docClickHandlers, h0, Nat.zero_add]

theorem reinit_accumulates_doc_handlers_witness :
    (create_floating_button^[3] ⟨0, false, 0⟩).docClickHandlers = 3 ∧
    ∀ d2 : SyncApp.DOMState,
      (removeSyncBtn d2).docClickHandlers = d2.docClickHandlers :=
  reinit_accumulates_doc_handlers 3 ⟨0, false, 0⟩ rfl

/-- C10: on a response with no error indicator the notice display is
invoked unconditionally with the response's message field — there is no
presence check, so `frappe.msgprint` is invoked even when the response
carries no message at all. -/
theorem success_msgprint_unconditional :
    sync_callback ⟨false, none⟩ = [Effect.msgprint none] ∧
    ∀ m : Option String, sync_callback ⟨false, m⟩ = [Effect.msgprint m] := by
  exact ⟨rfl, fun m => rfl⟩

end SyncApp
